import Mathlib

/-!
Verification of the sequential context-accumulating pipeline
(`autogen_simple_demo.py` / `config.py` / `crewai_demo.py`).

The embedding models the environment (`.env` values read by `config.py`),
the static agent/phase configuration, and the `ResearchPaperWorkflow`
class as explicit state passing.  The external chat-completion endpoint is
an oracle `ChatRequest → Except String String`; an `Except.error` models
an exception raised by the HTTP client, propagating like a Python
exception.  Every chat-completion request issued is logged so that
call counts and request contents can be inspected.
-/

namespace MultiAgentLab

/-! ## Environment (`.env` values, as read by `config.py`) -/

/-- The subset of `.env` that `config.py` reads.  `agentTemperature` is the
already-parsed value of `AGENT_TEMPERATURE` (a `Rat` standing for the float),
`agentMaxTokens` the parsed `AGENT_MAX_TOKENS`. -/
structure Env where
  groqApiKey : Option String
  groqModel : Option String
  agentTemperature : Option Rat
  agentMaxTokens : Option Nat
deriving Repr, DecidableEq

/-- Python truthiness of an `os.getenv` result: falsy iff unset or empty. -/
def pyTruthy : Option String → Bool
  | none => false
  | some s => !(s == "")

def GROQ_API_KEY (env : Env) : Option String := env.groqApiKey

def GROQ_MODEL (env : Env) : String := env.groqModel.getD "llama-3.1-8b-instant"

def AGENT_TEMPERATURE_DEFAULT (env : Env) : Rat := env.agentTemperature.getD (7/10)

def AGENT_MAX_TOKENS (env : Env) : Nat := env.agentMaxTokens.getD 2000

/-! ## Agent and phase configuration (`config.py`) -/

/-- An agent-config dict.  `role` is accessed with `agent_cfg['role']`
(always present in the defined configs); `temperature` and `instructions`
are accessed with `.get`, hence `Option`. -/
structure AgentCfg where
  name : String
  role : String
  temperature : Option Rat
  instructions : Option String
deriving Repr, DecidableEq

def LITERATURE_AGENT (env : Env) : AgentCfg :=
  { name := "LiteratureReviewer"
    role := "Literature Review Specialist"
    temperature := some (AGENT_TEMPERATURE_DEFAULT env)
    instructions := some
      ("You conduct a concise but insightful literature review. " ++
       "You summarize key themes, representative papers, and open questions, " ++
       "highlighting where the field currently stands.") }

def GAP_AGENT (env : Env) : AgentCfg :=
  { name := "GapAnalyst"
    role := "Research Gap Analyst"
    temperature := some (AGENT_TEMPERATURE_DEFAULT env)
    instructions := some
      ("You read the literature summary and identify gaps, tensions, and " ++
       "promising research directions. You propose 2–3 concrete research " ++
       "questions or hypotheses that a new paper could address.") }

def OUTLINE_AGENT (env : Env) : AgentCfg :=
  { name := "OutlineDesigner"
    role := "Research Paper Outline Designer"
    temperature := some (AGENT_TEMPERATURE_DEFAULT env)
    instructions := some
      ("You turn a research idea into a well-structured paper outline. " ++
       "You define sections (e.g., Introduction, Related Work, Method, " ++
       "Experiments, Discussion, Conclusion) and list bullet points for " ++
       "what each section should cover.") }

def REVIEW_AGENT (env : Env) : AgentCfg :=
  { name := "OutlineReviewer"
    role := "Critical Research Mentor"
    temperature := some (AGENT_TEMPERATURE_DEFAULT env)
    instructions := some
      ("You critically review the proposed outline, checking for coherence, " ++
       "feasibility, and novelty. You suggest improvements and highlight " ++
       "any missing sections or clarifications needed.") }

structure WorkflowPhase where
  name : String
  description : String
  agent_config : AgentCfg
deriving Repr, DecidableEq

def WORKFLOW_PHASES (env : Env) : List WorkflowPhase :=
  [ { name := "literature"
      description := "Literature review on the topic"
      agent_config := LITERATURE_AGENT env }
  , { name := "gaps"
      description := "Analyze research gaps and propose questions"
      agent_config := GAP_AGENT env }
  , { name := "outline"
      description := "Design structured paper outline"
      agent_config := OUTLINE_AGENT env }
  , { name := "review"
      description := "Critically review and refine the outline"
      agent_config := REVIEW_AGENT env } ]

/-! ## The AutoGen-style workflow (`autogen_simple_demo.py`) -/

def TOPIC : String := "How multi-agent AI systems can support human decision-making"

structure ChatMessage where
  role : String
  content : String
deriving Repr, DecidableEq

/-- One `client.chat.completions.create(...)` call's parameters. -/
structure ChatRequest where
  model : String
  temperature : Option Rat
  max_tokens : Nat
  messages : List ChatMessage
deriving Repr, DecidableEq

/-- The mutable state of a `ResearchPaperWorkflow` instance: the model name
and `self.outputs`, an insertion-ordered dict from phase name to text. -/
structure ResearchPaperWorkflow where
  model : String
  outputs : List (String × String)
deriving Repr, DecidableEq

/-- `ResearchPaperWorkflow.__init__`: raises `RuntimeError` when
`GROQ_API_KEY` is falsy, otherwise starts with empty outputs. -/
def mkResearchPaperWorkflow (env : Env) (model : String := GROQ_MODEL env) :
    Except String ResearchPaperWorkflow :=
  if pyTruthy (GROQ_API_KEY env) then
    .ok { model := model, outputs := [] }
  else
    .error "GROQ_API_KEY is not set in .env."

/-- Python dict assignment `d[k] = v` on an insertion-ordered assoc list:
update in place when the key exists, append otherwise. -/
def dictSet (d : List (String × String)) (k v : String) : List (String × String) :=
  if d.any (fun p => p.1 == k) then
    d.map (fun p => if p.1 == k then (k, v) else p)
  else
    d ++ [(k, v)]

/-- Python dict lookup `d.get(k)`. -/
def dictGet (d : List (String × String)) (k : String) : Option String :=
  (d.find? (fun p => p.1 == k)).map (fun p => p.2)

/-- `"\n".join(chunks)` -/
def joinNL : List String → String
  | [] => ""
  | [s] => s
  | s :: t :: rest => s ++ "\n" ++ joinNL (t :: rest)

/-- Python's `str.upper()` (character-wise upper-casing). -/
def pyUpper (s : String) : String := String.mk (s.data.map Char.toUpper)

/-- One labeled context chunk: `f"[{prev_name.upper()} OUTPUT]\n{content}\n"`. -/
def contextChunk (p : String × String) : String :=
  "[" ++ pyUpper p.1 ++ " OUTPUT]\n" ++ p.2 ++ "\n"

/-- `context_text` as built in `run_phase` from `self.outputs`. -/
def context_text (outputs : List (String × String)) : String :=
  if outputs.isEmpty then "No prior context yet."
  else joinNL (outputs.map contextChunk)

/-- The system prompt built in `run_phase`. -/
def system_prompt (agent_cfg : AgentCfg) : String :=
  "You are a " ++ agent_cfg.role ++ ".\n\n" ++
  agent_cfg.instructions.getD "" ++ "\n\n" ++
  "The paper topic is: '" ++ TOPIC ++ "'."

/-- The user message selected by the `if phase_name == ...` chain. -/
def user_message (phase_name : String) : String :=
  if phase_name == "literature" then
    "Write a concise literature review for this topic. " ++
    "Mention 3–5 key themes or directions and typical methods used."
  else if phase_name == "gaps" then
    "Based on the literature review, identify gaps or open problems. " ++
    "Propose 2–3 concrete research questions or hypotheses that a new paper could address."
  else if phase_name == "outline" then
    "Design a detailed outline for a full research paper on this topic, " ++
    "grounded in the research questions above. Use standard sections " ++
    "(Introduction, Related Work, Method, Experiments, Results/Discussion, Conclusion) " ++
    "with bullet points under each."
  else if phase_name == "review" then
    "Critically review the proposed outline. Point out strengths, weaknesses, " ++
    "and any missing parts. Then provide an improved, final outline."
  else
    "Summarize the context above in a helpful way."

/-- What one `run_phase` call computes before mutating state: the rendered
context block (printed when `VERBOSE`) and the single request issued. -/
structure PhaseCall where
  context_rendered : String
  request : ChatRequest
deriving Repr, DecidableEq

/-- `ResearchPaperWorkflow.run_phase`.  Builds the system prompt, the
context block, the user message, issues exactly one request (messages:
system then user — note the context block is not among them), and on
success stores the returned text under the phase's name. -/
def run_phase (env : Env) (oracle : ChatRequest → Except String String)
    (wf : ResearchPaperWorkflow) (phase_name : String) (agent_cfg : AgentCfg) :
    PhaseCall × Except String ResearchPaperWorkflow :=
  let ctx := context_text wf.outputs
  let req : ChatRequest :=
    { model := wf.model
      temperature := agent_cfg.temperature
      max_tokens := AGENT_MAX_TOKENS env
      messages :=
        [ { role := "system", content := system_prompt agent_cfg }
        , { role := "user", content := user_message phase_name } ] }
  (⟨ctx, req⟩,
    match oracle req with
    | .error e => .error e
    | .ok content => .ok { wf with outputs := dictSet wf.outputs phase_name content })

/-- The phase loop of `ResearchPaperWorkflow.run`: phases in declared order,
stopping at the first raised exception.  Returns the requests actually
issued alongside the outcome. -/
def run_phases (env : Env) (oracle : ChatRequest → Except String String)
    (wf : ResearchPaperWorkflow) :
    List WorkflowPhase → List ChatRequest × Except String ResearchPaperWorkflow
  | [] => ([], .ok wf)
  | p :: ps =>
    let step := run_phase env oracle wf p.name p.agent_config
    match step.2 with
    | .error e => ([step.1.request], .error e)
    | .ok wf' =>
      let rest := run_phases env oracle wf' ps
      (step.1.request :: rest.1, rest.2)

/-- `"=" * 80` -/
def eqLine : String := String.mk (List.replicate 80 '=')

/-- One phase's section in the report file. -/
def phaseBlock (p : String × String) : String :=
  "--- PHASE: " ++ p.1 ++ " ---\n" ++ p.2 ++ "\n\n"

/-- The full content written to `autogen_ex4.txt`. -/
def report_text (model : String) (outputs : List (String × String)) : String :=
  "AutoGen Exercise 4 - Research Paper Outline\n" ++ eqLine ++ "\n" ++
  "Topic: " ++ TOPIC ++ "\n" ++ "Model: " ++ model ++ "\n\n" ++
  String.join (outputs.map phaseBlock)

/-- `ResearchPaperWorkflow.run`: run all phases, then (only if none raised)
write the report.  The `String` in the `ok` case is the file content. -/
def runWorkflow (env : Env) (oracle : ChatRequest → Except String String)
    (wf : ResearchPaperWorkflow) :
    List ChatRequest × Except String (ResearchPaperWorkflow × String) :=
  let pr := run_phases env oracle wf (WORKFLOW_PHASES env)
  (pr.1,
    match pr.2 with
    | .error e => .error e
    | .ok wf' => .ok (wf', report_text wf'.model wf'.outputs))

/-- Observable outcome of one invocation of the script: the chat-completion
requests attempted, the report file content if one was written, and whether
the run finished or raised. -/
structure RunOutcome where
  requests : List ChatRequest
  written : Option String
  result : Except String Unit
deriving Repr

/-- The `__main__` block of `autogen_simple_demo.py`:
`ResearchPaperWorkflow()` then `.run()`. -/
def autogen_main (env : Env) (oracle : ChatRequest → Except String String) :
    RunOutcome :=
  match mkResearchPaperWorkflow env with
  | .error e => { requests := [], written := none, result := .error e }
  | .ok wf =>
    let pr := runWorkflow env oracle wf
    match pr.2 with
    | .error e => { requests := pr.1, written := none, result := .error e }
    | .ok (_, rep) => { requests := pr.1, written := some rep, result := .ok () }

/-! ## The CrewAI demo's entry point and report (`crewai_demo.py`) -/

/-- The theme chosen by `__main__`: default, overridden by
`" ".join(sys.argv[1:])` when any argument is given. -/
def crew_theme (argv : List String) : String :=
  if argv.length > 1 then String.intercalate " " (argv.drop 1)
  else "AI in Education"

/-- `create_program_chair_agent`'s goal string. -/
def program_chair_goal (conference_theme : String) : String :=
  "Define clear goals, target audience, and high-level tracks for a " ++
  "3-day conference on '" ++ (conference_theme ++ "'.")

/-- `create_program_task`'s description string. -/
def program_task_description (conference_theme : String) : String :=
  "Define the high-level structure of a 3-day conference on '" ++
  (conference_theme ++
   ("'. " ++ "Clarify the primary audience, main goals, and propose 3â€“4 tracks " ++
    "(e.g., technical, applications, ethics, workshops)."))

/-- The content written to `crewai_demo_ex4.txt` (the `datetime.now()`
stamp and the crew's result are parameters). -/
def crew_report (env : Env) (conference_theme generatedAt result : String) : String :=
  "CrewAI Exercise 4 - 3-Day Conference Agenda\n" ++ eqLine ++ "\n" ++
  "Conference Theme: " ++
  (conference_theme ++
   ("\nModel (Groq): " ++ GROQ_MODEL env ++ "\nGenerated at: " ++ generatedAt ++
    "\n\n" ++ result))

/-! ## Helpers for stating the claims -/

/-- `true` iff `pat` occurs as a substring (on the character level). -/
def leadsWith : List Char → List Char → Bool
  | [], _ => true
  | _ :: _, [] => false
  | a :: as, b :: bs => a == b && leadsWith as bs

def hasInfixChars (pat : List Char) : List Char → Bool
  | [] => leadsWith pat []
  | c :: rest => leadsWith pat (c :: rest) || hasInfixChars pat rest

def containsStr (s pat : String) : Bool :=
  hasInfixChars pat.data s.data

/-- A demo environment with the API key set and everything else left to
its default. -/
def envDemo : Env :=
  { groqApiKey := some "gsk-demo", groqModel := none
    agentTemperature := none, agentMaxTokens := none }

/-- A demo environment with `GROQ_API_KEY` unset. -/
def envNoKey : Env :=
  { groqApiKey := none, groqModel := none
    agentTemperature := none, agentMaxTokens := none }

/-- An agent config whose dict lacks both optional keys. -/
def cfgNoTemperature : AgentCfg :=
  { name := "N", role := "R", temperature := none, instructions := none }

/-! ## Helper lemmas -/

lemma joinNL_cons_of_ne_nil (h : String) (l : List String) (hl : l ≠ []) :
    joinNL (h :: l) = h ++ "\n" ++ joinNL l := by
  cases l with
  | nil => exact absurd rfl hl
  | cons t rest => rfl

lemma joinNL_surrounds (l1 : List String) (s : String) (l2 : List String) :
    ∃ p q, joinNL (l1 ++ s :: l2) = p ++ s ++ q := by
  induction l1 with
  | nil =>
    cases l2 with
    | nil =>
      exact ⟨"", "", by simp [joinNL, String.empty_append, String.append_empty]⟩
    | cons t rest =>
      refine ⟨"", "\n" ++ joinNL (t :: rest), ?_⟩
      show s ++ "\n" ++ joinNL (t :: rest) = "" ++ s ++ ("\n" ++ joinNL (t :: rest))
      rw [String.empty_append, String.append_assoc]
  | cons h t ih =>
    obtain ⟨p, q, hpq⟩ := ih
    refine ⟨h ++ "\n" ++ p, q, ?_⟩
    rw [List.cons_append, joinNL_cons_of_ne_nil _ _ (by simp), hpq]
    simp [String.append_assoc]

lemma run_phase_ok_shape (env : Env) (oracle : ChatRequest → Except String String)
    (wf : ResearchPaperWorkflow) (n : String) (cfg : AgentCfg)
    (wf1 : ResearchPaperWorkflow)
    (h : (run_phase env oracle wf n cfg).2 = .ok wf1) :
    ∃ c, wf1 = { wf with outputs := dictSet wf.outputs n c } := by
  simp only [run_phase] at h
  split at h
  · exact absurd h (by simp)
  · exact ⟨_, (Except.ok.inj h).symm⟩

lemma run_phases_length (env : Env) (oracle : ChatRequest → Except String String) :
    ∀ (phases : List WorkflowPhase) (wf wf' : ResearchPaperWorkflow),
    (run_phases env oracle wf phases).2 = .ok wf' →
    (run_phases env oracle wf phases).1.length = phases.length := by
  intro phases
  induction phases with
  | nil => intro wf wf' _; rfl
  | cons p ps ih =>
    intro wf wf' h
    cases hstep : (run_phase env oracle wf p.name p.agent_config).2 with
    | error e =>
      simp only [run_phases, hstep] at h
      exact absurd h (by simp)
    | ok wf1 =>
      simp only [run_phases, hstep] at h ⊢
      simp only [List.length_cons]
      rw [ih wf1 wf' h]

lemma dictSet_fresh (d : List (String × String)) (k v : String)
    (h : k ∉ d.map Prod.fst) : dictSet d k v = d ++ [(k, v)] := by
  have ha : d.any (fun p => p.1 == k) = false := by
    rw [List.any_eq_false]
    intro p hp
    simp only [beq_iff_eq]
    intro hk
    exact h (hk ▸ List.mem_map_of_mem Prod.fst hp)
  simp [dictSet, ha]

lemma run_phases_model_keys (env : Env)
    (oracle : ChatRequest → Except String String) :
    ∀ (phases : List WorkflowPhase) (wf wf' : ResearchPaperWorkflow),
    (run_phases env oracle wf phases).2 = .ok wf' →
    wf'.model = wf.model ∧
    ((wf.outputs.map Prod.fst ++ phases.map WorkflowPhase.name).Nodup →
      wf'.outputs.map Prod.fst
        = wf.outputs.map Prod.fst ++ phases.map WorkflowPhase.name) := by
  intro phases
  induction phases with
  | nil =>
    intro wf wf' h
    simp only [run_phases] at h
    cases h
    simp
  | cons p ps ih =>
    intro wf wf' h
    cases hstep : (run_phase env oracle wf p.name p.agent_config).2 with
    | error e =>
      simp only [run_phases, hstep] at h
      exact absurd h (by simp)
    | ok wf1 =>
      simp only [run_phases, hstep] at h
      obtain ⟨c, hc⟩ := run_phase_ok_shape env oracle wf p.name p.agent_config wf1 hstep
      obtain ⟨hmodel, hkeys⟩ := ih wf1 wf' h
      subst hc
      refine ⟨hmodel, ?_⟩
      intro hnd
      rw [List.map_cons] at hnd
      have hdisj := (List.nodup_append.mp hnd).2.2
      have hfresh : p.name ∉ wf.outputs.map Prod.fst := by
        intro hmem
        exact hdisj hmem (List.mem_cons_self _ _)
      have houts : (dictSet wf.outputs p.name c).map Prod.fst
          = wf.outputs.map Prod.fst ++ [p.name] := by
        rw [dictSet_fresh _ _ _ hfresh, List.map_append]
        rfl
      have hnd' : ((dictSet wf.outputs p.name c).map Prod.fst
          ++ ps.map WorkflowPhase.name).Nodup := by
        rw [houts, List.append_assoc]
        simpa using hnd
      rw [hkeys hnd', houts, List.append_assoc]
      rfl

lemma dictGet_append_fresh (k v : String) :
    ∀ d : List (String × String), d.any (fun p => p.1 == k) = false →
    dictGet (d ++ [(k, v)]) k = some v := by
  intro d
  induction d with
  | nil => intro _; simp [dictGet, List.find?]
  | cons p d ih =>
    intro h
    rw [List.any_cons, Bool.or_eq_false_iff] at h
    rw [List.cons_append, dictGet, List.find?_cons_of_neg _ (by simp [h.1])]
    exact ih h.2

lemma dictGet_map_overwrite (k v : String) :
    ∀ d : List (String × String), d.any (fun p => p.1 == k) = true →
    dictGet (d.map (fun p => if p.1 == k then (k, v) else p)) k = some v := by
  intro d
  induction d with
  | nil => intro h; simp at h
  | cons p d ih =>
    intro h
    rw [List.any_cons] at h
    by_cases hp : (p.1 == k) = true
    · rw [List.map_cons, if_pos hp, dictGet,
        List.find?_cons_of_pos _ (by simp)]
      rfl
    · have hd : d.any (fun p => p.1 == k) = true := by
        rcases Bool.or_eq_true_iff.mp h with h1 | h2
        · exact absurd h1 hp
        · exact h2
      rw [List.map_cons, if_neg hp, dictGet, List.find?_cons_of_neg _ (by simpa using hp)]
      exact ih hd

lemma dictGet_dictSet (d : List (String × String)) (k v : String) :
    dictGet (dictSet d k v) k = some v := by
  by_cases h : d.any (fun p => p.1 == k) = true
  · rw [dictSet, if_pos h]
    exact dictGet_map_overwrite k v d h
  · rw [dictSet, if_neg h]
    exact dictGet_append_fresh k v d (Bool.eq_false_iff.mpr h)

end MultiAgentLab

namespace MultiAgentLab

/-! ## The claims -/

set_option maxRecDepth 40000 in
/-- Claim C1 (refuted by the code): with a stub completion returning the
marker text, the run completes, stores the marker for every phase
(visible in the written report) and renders it into the context block, yet
no message of any issued request contains the marker — in particular the
phase-2 (`gaps`) prompt does not contain the `literature` output, because
`run_phase` sends only the system and user instruction messages. -/
theorem c1_context_absent_from_requests :
    ((autogen_main envDemo (fun _ => .ok "XYZZY-MARKER")).requests.map
        (fun r => r.messages.map (fun m => containsStr m.content "XYZZY-MARKER")))
      = [[false, false], [false, false], [false, false], [false, false]] ∧
    (autogen_main envDemo (fun _ => .ok "XYZZY-MARKER")).written =
      some (report_text "llama-3.1-8b-instant"
        [("literature", "XYZZY-MARKER"), ("gaps", "XYZZY-MARKER"),
         ("outline", "XYZZY-MARKER"), ("review", "XYZZY-MARKER")]) ∧
    context_text [("literature", "XYZZY-MARKER")]
      = "[LITERATURE OUTPUT]\nXYZZY-MARKER\n" ∧
    containsStr (context_text [("literature", "XYZZY-MARKER")]) "XYZZY-MARKER" = true := by
  exact ⟨by decide, by decide, by decide, by decide⟩

/-- Claim C2: an unrecognized phase identifier does not raise; prompt
construction is total and the generic fallback instruction is used verbatim
as the user message of the issued request. -/
theorem c2_unknown_phase_fallback (env : Env)
    (oracle : ChatRequest → Except String String) (wf : ResearchPaperWorkflow)
    (cfg : AgentCfg) (phase_name : String)
    (h1 : phase_name ≠ "literature") (h2 : phase_name ≠ "gaps")
    (h3 : phase_name ≠ "outline") (h4 : phase_name ≠ "review") :
    user_message phase_name = "Summarize the context above in a helpful way." ∧
    (run_phase env oracle wf phase_name cfg).1.request.messages =
      [ { role := "system", content := system_prompt cfg }
      , { role := "user"
          content := "Summarize the context above in a helpful way." } ] := by
  have hu : user_message phase_name =
      "Summarize the context above in a helpful way." := by
    simp [user_message, h1, h2, h3, h4]
  exact ⟨hu, by simp [run_phase, hu]⟩

theorem c2_unknown_phase_fallback_witness :
    user_message "planning" = "Summarize the context above in a helpful way." ∧
    (run_phase envDemo (fun _ => .ok "") { model := "m", outputs := [] }
        "planning" (LITERATURE_AGENT envDemo)).1.request.messages =
      [ { role := "system", content := system_prompt (LITERATURE_AGENT envDemo) }
      , { role := "user"
          content := "Summarize the context above in a helpful way." } ] :=
  c2_unknown_phase_fallback envDemo (fun _ => .ok "")
    { model := "m", outputs := [] } (LITERATURE_AGENT envDemo) "planning"
    (by decide) (by decide) (by decide) (by decide)

/-- Claim C3: with a falsy `GROQ_API_KEY`, constructing the workflow raises
before any phase executes: the run reports the construction error, the
request log stays empty (call count zero), and no report is written. -/
theorem c3_missing_key_no_calls (env : Env)
    (oracle : ChatRequest → Except String String)
    (h : pyTruthy (GROQ_API_KEY env) = false) :
    (autogen_main env oracle).result = .error "GROQ_API_KEY is not set in .env." ∧
    (autogen_main env oracle).requests = [] ∧
    (autogen_main env oracle).written = none := by
  simp [autogen_main, mkResearchPaperWorkflow, h]

theorem c3_missing_key_no_calls_witness :
    (autogen_main envNoKey (fun _ => .ok "")).result =
      .error "GROQ_API_KEY is not set in .env." ∧
    (autogen_main envNoKey (fun _ => .ok "")).requests = [] ∧
    (autogen_main envNoKey (fun _ => .ok "")).written = none :=
  c3_missing_key_no_calls envNoKey (fun _ => .ok "") rfl

/-- Claim C4: the report is written only after all phases complete: if a
phase's completion call raises, the exception propagates and no report is
written; conversely a written report implies every phase ran to success. -/
theorem c4_no_partial_report (env : Env)
    (oracle : ChatRequest → Except String String) :
    (∀ (wf : ResearchPaperWorkflow) (e : String),
      mkResearchPaperWorkflow env = .ok wf →
      (run_phases env oracle wf (WORKFLOW_PHASES env)).2 = .error e →
      (autogen_main env oracle).result = .error e ∧
      (autogen_main env oracle).written = none) ∧
    (∀ rep, (autogen_main env oracle).written = some rep →
      ∃ wf wf', mkResearchPaperWorkflow env = .ok wf ∧
        (run_phases env oracle wf (WORKFLOW_PHASES env)).2 = .ok wf' ∧
        rep = report_text wf'.model wf'.outputs) := by
  constructor
  · intro wf e hmk hrun
    simp [autogen_main, hmk, runWorkflow, hrun]
  · intro rep hrep
    cases hmk : mkResearchPaperWorkflow env with
    | error e =>
      simp only [autogen_main, hmk] at hrep
      exact absurd hrep (by simp)
    | ok wf =>
      cases hrun : (run_phases env oracle wf (WORKFLOW_PHASES env)).2 with
      | error e =>
        simp only [autogen_main, hmk, runWorkflow, hrun] at hrep
        exact absurd hrep (by simp)
      | ok wf' =>
        simp only [autogen_main, hmk, runWorkflow, hrun] at hrep
        refine ⟨wf, wf', rfl, hrun, ?_⟩
        simpa using hrep.symm

theorem c4_no_partial_report_witness :
    (autogen_main envDemo (fun _ => .error "boom")).result = .error "boom" ∧
    (autogen_main envDemo (fun _ => .error "boom")).written = none :=
  (c4_no_partial_report envDemo (fun _ => .error "boom")).1
    { model := "llama-3.1-8b-instant", outputs := [] } "boom" rfl rfl

/-- Claim C5: the rendered context block emits, for each stored entry in
insertion order, a header line naming the phase upper-cased followed by the
stored text; in particular after phase `a` produced `x`, any later phase's
context block contains the labeled block for `a` verbatim, and for
`[("literature", "X")]` the block is exactly `[LITERATURE OUTPUT]\nX\n`. -/
theorem c5_context_block_labeled (pre : List (String × String)) (a x : String)
    (post : List (String × String)) :
    (∃ p q, context_text (pre ++ (a, x) :: post)
        = p ++ ("[" ++ pyUpper a ++ " OUTPUT]\n" ++ x ++ "\n") ++ q) ∧
    context_text [("literature", "X")] = "[LITERATURE OUTPUT]\nX\n" := by
  constructor
  · have hne : (pre ++ (a, x) :: post).isEmpty = false := by
      simp [List.isEmpty_iff]
    rw [context_text, hne]
    simp only [Bool.false_eq_true, if_false, List.map_append, List.map_cons]
    exact joinNL_surrounds (pre.map contextChunk) (contextChunk (a, x)) (post.map contextChunk)
  · decide

/-- Claim C6: any written report decomposes into the fixed header — title,
`Topic:` line with the topic string, `Model:` line with the configured
model identifier — followed by one delimiter-labeled block per phase, in
execution order (the stored keys are exactly the four phases in order). -/
theorem c6_report_header_and_blocks (env : Env)
    (oracle : ChatRequest → Except String String) (rep : String)
    (h : (autogen_main env oracle).written = some rep) :
    ∃ outs : List (String × String),
      outs.map Prod.fst = ["literature", "gaps", "outline", "review"] ∧
      rep = "AutoGen Exercise 4 - Research Paper Outline\n" ++ eqLine ++ "\n" ++
        "Topic: " ++ TOPIC ++ "\n" ++ "Model: " ++ GROQ_MODEL env ++ "\n\n" ++
        String.join (outs.map phaseBlock) := by
  have hnames : (WORKFLOW_PHASES env).map WorkflowPhase.name
      = ["literature", "gaps", "outline", "review"] := rfl
  by_cases hk : pyTruthy (GROQ_API_KEY env) = true
  · have hmk : mkResearchPaperWorkflow env
        = .ok { model := GROQ_MODEL env, outputs := [] } := by
      simp [mkResearchPaperWorkflow, hk]
    cases hrun : (run_phases env oracle { model := GROQ_MODEL env, outputs := [] }
        (WORKFLOW_PHASES env)).2 with
    | error e =>
      simp only [autogen_main, hmk, runWorkflow, hrun] at h
      exact absurd h (by simp)
    | ok wf' =>
      simp only [autogen_main, hmk, runWorkflow, hrun] at h
      obtain ⟨hmodel, hkeys⟩ :=
        run_phases_model_keys env oracle (WORKFLOW_PHASES env) _ wf' hrun
      refine ⟨wf'.outputs, ?_, ?_⟩
      · have := hkeys (by rw [hnames]; simp)
        simpa [hnames] using this
      · have hrep : rep = report_text wf'.model wf'.outputs := by
          simpa using h.symm
        rw [hrep, hmodel]
        rfl
  · have hmk : mkResearchPaperWorkflow env
        = .error "GROQ_API_KEY is not set in .env." := by
      simp [mkResearchPaperWorkflow, hk]
    simp only [autogen_main, hmk] at h
    exact absurd h (by simp)

theorem c6_report_header_and_blocks_witness :
    ∃ outs : List (String × String),
      outs.map Prod.fst = ["literature", "gaps", "outline", "review"] ∧
      report_text "llama-3.1-8b-instant"
          [("literature", "OK"), ("gaps", "OK"), ("outline", "OK"), ("review", "OK")]
        = "AutoGen Exercise 4 - Research Paper Outline\n" ++ eqLine ++ "\n" ++
          "Topic: " ++ TOPIC ++ "\n" ++ "Model: " ++ GROQ_MODEL envDemo ++ "\n\n" ++
          String.join (outs.map phaseBlock) :=
  c6_report_header_and_blocks envDemo (fun _ => .ok "OK")
    (report_text "llama-3.1-8b-instant"
      [("literature", "OK"), ("gaps", "OK"), ("outline", "OK"), ("review", "OK")])
    rfl

/-- Claim C7: each phase issues exactly one request, parameterized by the
phase's configured temperature, `AGENT_MAX_TOKENS`, and exactly the two
messages system-then-user; on success the single returned text is stored
under the phase's name; and a completed run issues one request per phase. -/
theorem c7_single_request_per_phase (env : Env)
    (oracle : ChatRequest → Except String String) (wf : ResearchPaperWorkflow)
    (phase_name : String) (cfg : AgentCfg) :
    ((run_phase env oracle wf phase_name cfg).1.request.model = wf.model ∧
     (run_phase env oracle wf phase_name cfg).1.request.temperature = cfg.temperature ∧
     (run_phase env oracle wf phase_name cfg).1.request.max_tokens = AGENT_MAX_TOKENS env ∧
     (run_phase env oracle wf phase_name cfg).1.request.messages =
       [ { role := "system", content := system_prompt cfg }
       , { role := "user", content := user_message phase_name } ]) ∧
    (∀ c, oracle (run_phase env oracle wf phase_name cfg).1.request = .ok c →
       (run_phase env oracle wf phase_name cfg).2 =
         .ok { wf with outputs := dictSet wf.outputs phase_name c } ∧
       dictGet (dictSet wf.outputs phase_name c) phase_name = some c) ∧
    (∀ (phases : List WorkflowPhase) (wf₀ wf₁ : ResearchPaperWorkflow),
       (run_phases env oracle wf₀ phases).2 = .ok wf₁ →
       (run_phases env oracle wf₀ phases).1.length = phases.length) := by
  refine ⟨⟨rfl, rfl, rfl, rfl⟩, ?_, run_phases_length env oracle⟩
  intro c hc
  simp only [run_phase] at hc ⊢
  rw [hc]
  exact ⟨rfl, dictGet_dictSet wf.outputs phase_name c⟩

theorem c7_single_request_per_phase_witness :
    (run_phase envDemo (fun _ => .ok "T") { model := "m", outputs := [] }
        "literature" (LITERATURE_AGENT envDemo)).2 =
      .ok { model := "m", outputs := dictSet [] "literature" "T" } ∧
    dictGet (dictSet [] "literature" "T") "literature" = some "T" :=
  (c7_single_request_per_phase envDemo (fun _ => .ok "T")
    { model := "m", outputs := [] } "literature" (LITERATURE_AGENT envDemo)).2.1
    "T" rfl

/-- Claim C8: the CrewAI entry point takes an optional free-text argument:
with arguments, the theme is their space-joined text; with none, the
hardcoded default; and the selected theme is embedded in the program-chair
goal, the program task description, and the persisted report header. -/
theorem c8_cli_theme_override (env : Env) (argv : List String)
    (generatedAt result : String) :
    (argv.length ≤ 1 → crew_theme argv = "AI in Education") ∧
    (2 ≤ argv.length →
      crew_theme argv = String.intercalate " " (argv.drop 1)) ∧
    (∃ p q, program_chair_goal (crew_theme argv) = p ++ (crew_theme argv ++ q)) ∧
    (∃ p q, program_task_description (crew_theme argv)
        = p ++ (crew_theme argv ++ q)) ∧
    (∃ p q, crew_report env (crew_theme argv) generatedAt result
        = p ++ (crew_theme argv ++ q)) := by
  refine ⟨?_, ?_, ⟨_, _, rfl⟩, ⟨_, _, rfl⟩, ⟨_, _, rfl⟩⟩
  · intro h
    rw [crew_theme, if_neg (by omega)]
  · intro h
    rw [crew_theme, if_pos (by omega)]

theorem c8_cli_theme_override_witness :
    crew_theme ["crewai_demo.py"] = "AI in Education" ∧
    crew_theme ["crewai_demo.py", "AI", "in", "Law"] =
      String.intercalate " " (["crewai_demo.py", "AI", "in", "Law"].drop 1) :=
  ⟨(c8_cli_theme_override envDemo ["crewai_demo.py"] "now" "res").1 (by decide),
   (c8_cli_theme_override envDemo ["crewai_demo.py", "AI", "in", "Law"]
      "now" "res").2.1 (by decide)⟩

/-- Claim C9: the instruction lookup compares phase identifiers by exact,
case-sensitive equality: case variants of recognized keys take the generic
fallback branch, while the exact lower-case key does not. -/
theorem c9_case_sensitive_lookup :
    user_message "Literature" = "Summarize the context above in a helpful way." ∧
    user_message "LITERATURE" = "Summarize the context above in a helpful way." ∧
    user_message "Gaps" = "Summarize the context above in a helpful way." ∧
    user_message "Outline" = "Summarize the context above in a helpful way." ∧
    user_message "REVIEW" = "Summarize the context above in a helpful way." ∧
    user_message "literature" ≠ "Summarize the context above in a helpful way." := by
  decide

/-- Claim C10: a phase whose agent config lacks the temperature key issues
its request with temperature `none` (deferring to the endpoint default),
not with `AGENT_TEMPERATURE_DEFAULT`. -/
theorem c10_missing_temperature_is_none (env : Env)
    (oracle : ChatRequest → Except String String) (wf : ResearchPaperWorkflow)
    (phase_name : String) (cfg : AgentCfg) (h : cfg.temperature = none) :
    (run_phase env oracle wf phase_name cfg).1.request.temperature = none ∧
    (run_phase env oracle wf phase_name cfg).1.request.temperature ≠
      some (AGENT_TEMPERATURE_DEFAULT env) := by
  exact ⟨by simp [run_phase, h], by simp [run_phase, h]⟩

theorem c10_missing_temperature_is_none_witness :
    (run_phase envDemo (fun _ => .ok "") { model := "m", outputs := [] }
        "literature" cfgNoTemperature).1.request.temperature = none ∧
    (run_phase envDemo (fun _ => .ok "") { model := "m", outputs := [] }
        "literature" cfgNoTemperature).1.request.temperature ≠
      some (AGENT_TEMPERATURE_DEFAULT envDemo) :=
  c10_missing_temperature_is_none envDemo (fun _ => .ok "")
    { model := "m", outputs := [] } "literature" cfgNoTemperature rfl

end MultiAgentLab
